import Mathlib

/-!
Shallow embedding of the physics-simulation core of `src/index.tsx`
(the `PhysicsArena` component, the material catalog `MATERIAL_PRESETS`,
the `spawn_kinetic_node` branch of `handleTool`, and the material-picker
handler of `App`).  Numbers are modelled as real numbers; JavaScript's
`Math.sqrt` is `Real.sqrt` and `Math.atan2(dy, dx)` is the argument of
the complex number `dx + dy*I` (`Complex.arg`), which agrees with
`atan2` on every input including `(0, 0)` where both give `0`.
-/

namespace TitanOmni

noncomputable section

/-- Environment layer (interface `Layer` of the source, physics fields only:
`visible`, `name` and `colorBias` never enter the simulation). -/
structure Layer where
  gravityX : ℝ
  gravityY : ℝ
  atmDensity : ℝ
  viscosity : ℝ

/-- Kinetic node (interface `PhysicsEntity` of the source). -/
structure PhysicsEntity where
  id : ℕ
  layerId : String
  type : String
  x : ℝ
  y : ℝ
  z : ℝ
  vx : ℝ
  vy : ℝ
  vz : ℝ
  size : ℝ
  mass : ℝ
  elasticity : ℝ
  friction : ℝ
  damping : ℝ
  airResistance : ℝ
  viscosity : ℝ
  tensileStrength : ℝ
  buoyancy : ℝ
  isDragging : Bool
  stress : ℝ
  history : List ℝ

/-- Per-frame simulation parameters of `PhysicsArena`: the layer record
(association list plus the reserved `layers.DEFAULT` entry used as the
fallback of `layers[p.layerId] || layers.DEFAULT`), the mouse position held
in `mouseRef`, the canvas dimensions, `stepSize = temporalScale / subSteps`
and `subSteps`. -/
structure SimConfig where
  layers : List (String × Layer)
  defaultLayer : Layer
  mouseX : ℝ
  mouseY : ℝ
  width : ℝ
  height : ℝ
  stepSize : ℝ
  subSteps : ℕ

/-- `layers[p.layerId] || layers.DEFAULT`. -/
def resolveLayer (cfg : SimConfig) (lid : String) : Layer :=
  match cfg.layers.lookup lid with
  | some l => l
  | none => cfg.defaultLayer

/-- `stepSize` as computed in `PhysicsArena`: `temporalScale / subSteps`. -/
def stepSizeOf (temporalScale : ℝ) (subSteps : ℕ) : ℝ :=
  temporalScale / subSteps

/-- Body of the `if (dist < minDist)` collision branch for one ordered pair
`(a, b)` (source lines 232-250): stress accumulation clamped at 100, the
per-axis mass-weighted elastic velocity exchange scaled by each body's own
elasticity, and the 50/50 positional separation along the contact angle. -/
def resolveCollision (a b : PhysicsEntity) : PhysicsEntity × PhysicsEntity :=
  let dx := b.x - a.x
  let dy := b.y - a.y
  let dist := Real.sqrt (dx * dx + dy * dy)
  let minDist := (a.size + b.size) / 2
  if dist < minDist then
    let angle := Complex.arg ⟨dx, dy⟩
    let overlap := minDist - dist
    let impactVel := Real.sqrt ((a.vx - b.vx) ^ 2 + (a.vy - b.vy) ^ 2)
    let aStress := min 100 (a.stress + impactVel * (1 - a.tensileStrength))
    let bStress := min 100 (b.stress + impactVel * (1 - b.tensileStrength))
    let mSum := a.mass + b.mass
    let ax := (a.vx * (a.mass - b.mass) + 2 * b.mass * b.vx) / mSum
    let ay := (a.vy * (a.mass - b.mass) + 2 * b.mass * b.vy) / mSum
    let bx := (b.vx * (b.mass - a.mass) + 2 * a.mass * a.vx) / mSum
    let bY := (b.vy * (b.mass - a.mass) + 2 * a.mass * a.vy) / mSum
    ({ a with
        stress := aStress
        vx := ax * a.elasticity
        vy := ay * a.elasticity
        x := a.x - Real.cos angle * overlap / 2
        y := a.y - Real.sin angle * overlap / 2 },
     { b with
        stress := bStress
        vx := bx * b.elasticity
        vy := bY * b.elasticity
        x := b.x + Real.cos angle * overlap / 2
        y := b.y + Real.sin angle * overlap / 2 })
  else (a, b)

/-- The contact test of the collision pass: center distance strictly below
`(a.size + b.size) / 2`. -/
def inContact (a b : PhysicsEntity) : Prop :=
  Real.sqrt ((b.x - a.x) * (b.x - a.x) + (b.y - a.y) * (b.y - a.y))
    < (a.size + b.size) / 2

/-- One iteration of the inner collision loop: read entities `i` and `j`,
resolve them, and write both back in place. -/
def pairStep (ps : List PhysicsEntity) (i j : ℕ) : List PhysicsEntity :=
  match ps[i]?, ps[j]? with
  | some a, some b =>
      let r := resolveCollision a b
      (ps.set i r.1).set j r.2
  | _, _ => ps

/-- Index pairs visited by the two nested collision loops, in source order:
`i` ascending, and for each `i`, `j` ascending over `i+1 ≤ j < n`. -/
def pairIndices (n : ℕ) : List (ℕ × ℕ) :=
  ((List.range n).map (fun i =>
    (List.range n).filterMap (fun j => if i < j then some (i, j) else none))).flatten

/-- The O(n²) pairwise collision pass of one sub-step (source lines 230-253). -/
def collisionPass (ps : List PhysicsEntity) : List PhysicsEntity :=
  (pairIndices ps.length).foldl (fun acc ij => pairStep acc ij.1 ij.2) ps

/-- Velocity update of one sub-step (source lines 256-269): the proportional
drag controller when the entity is held, otherwise gravity, the depth-scaled
buoyant counter-force, and the combined drag damping factor. -/
def applyForces (env : Layer) (mouseX mouseY height stepSize : ℝ)
    (p : PhysicsEntity) : PhysicsEntity :=
  if p.isDragging then
    { p with vx := (mouseX - p.x) * 0.2, vy := (mouseY - p.y) * 0.2 }
  else
    let vx := p.vx + env.gravityX * stepSize
    let vy := p.vy + env.gravityY * stepSize
    let depth := p.y / height
    let bForce := env.atmDensity * (p.size * p.buoyancy) * 0.4 * depth
    let vy := vy - bForce * stepSize
    let drag := p.airResistance * env.atmDensity + p.viscosity * env.viscosity
      + p.damping
    { p with vx := vx * (1 - drag * stepSize), vy := vy * (1 - drag * stepSize) }

/-- Position update and stress decay (source lines 270-271). -/
def moveAndDecay (stepSize : ℝ) (p : PhysicsEntity) : PhysicsEntity :=
  { p with
      x := p.x + p.vx * stepSize
      y := p.y + p.vy * stepSize
      stress := max 0 (p.stress * 0.96) }

/-- Source line 273: `if (p.y > height) { p.y = height; p.vy *= -p.elasticity; }`. -/
def boundBottom (height : ℝ) (p : PhysicsEntity) : PhysicsEntity :=
  if p.y > height then { p with y := height, vy := p.vy * (-p.elasticity) } else p

/-- Source line 274: `if (p.y < 0) { p.y = 0; p.vy *= -p.elasticity; }`. -/
def boundTop (p : PhysicsEntity) : PhysicsEntity :=
  if p.y < 0 then { p with y := 0, vy := p.vy * (-p.elasticity) } else p

/-- Source line 275: `if (p.x > width) { p.x = width; p.vx *= -p.elasticity; }`. -/
def boundRight (width : ℝ) (p : PhysicsEntity) : PhysicsEntity :=
  if p.x > width then { p with x := width, vx := p.vx * (-p.elasticity) } else p

/-- Source line 276: `if (p.x < 0) { p.x = 0; p.vx *= -p.elasticity; }`. -/
def boundLeft (p : PhysicsEntity) : PhysicsEntity :=
  if p.x < 0 then { p with x := 0, vx := p.vx * (-p.elasticity) } else p

/-- Reflective boundary containment, in source order (lines 273-276):
bottom, top, right, left. -/
def applyBounds (width height : ℝ) (p : PhysicsEntity) : PhysicsEntity :=
  boundLeft (boundRight width (boundTop (boundBottom height p)))

/-- Telemetry capture on the first sub-step only (source lines 278-281):
append the scaled kinetic-energy sample, keeping the last 19 old samples
(`history.slice(-19)`). -/
def captureTelemetry (s : ℕ) (p : PhysicsEntity) : PhysicsEntity :=
  if s = 0 then
    let ke := 0.5 * p.mass * (p.vx * p.vx + p.vy * p.vy) / 1000
    { p with history := p.history.drop (p.history.length - 19) ++ [ke] }
  else p

/-- The whole per-entity body of the `ps.forEach` of sub-step `s`
(source lines 255-282). -/
def integrate (env : Layer) (mouseX mouseY width height stepSize : ℝ)
    (s : ℕ) (p : PhysicsEntity) : PhysicsEntity :=
  captureTelemetry s
    (applyBounds width height
      (moveAndDecay stepSize
        (applyForces env mouseX mouseY height stepSize p)))

/-- `integrate` with the entity's environment resolved from the config. -/
def integrateIn (cfg : SimConfig) (s : ℕ) (p : PhysicsEntity) : PhysicsEntity :=
  integrate (resolveLayer cfg p.layerId) cfg.mouseX cfg.mouseY cfg.width
    cfg.height cfg.stepSize s p

/-- One sub-step `s`: the pairwise collision pass followed by per-entity
integration. -/
def subStepAt (cfg : SimConfig) (s : ℕ) (ps : List PhysicsEntity) :
    List PhysicsEntity :=
  (collisionPass ps).map (integrateIn cfg s)

/-- The first `k` sub-steps of one frame. -/
def subStepRun (cfg : SimConfig) (k : ℕ) (ps : List PhysicsEntity) :
    List PhysicsEntity :=
  (List.range k).foldl (fun acc s => subStepAt cfg s acc) ps

/-- One full frame of the animation loop: `subSteps` sub-steps. -/
def frameStep (cfg : SimConfig) (ps : List PhysicsEntity) : List PhysicsEntity :=
  subStepRun cfg cfg.subSteps ps

/-- `n` frames of the animation loop. -/
def framesN (cfg : SimConfig) : ℕ → List PhysicsEntity → List PhysicsEntity
  | 0, ps => ps
  | n + 1, ps => frameStep cfg (framesN cfg n ps)

/-- A named bundle of physical coefficients.  Every entry of the source's
`MATERIAL_PRESETS` record defines exactly these seven fields (`damping` and
`size` are never part of a preset). -/
structure MaterialPreset where
  mass : ℝ
  elasticity : ℝ
  friction : ℝ
  airResistance : ℝ
  buoyancy : ℝ
  tensileStrength : ℝ
  viscosity : ℝ

/-- The material catalog `MATERIAL_PRESETS` (source lines 81-87). -/
def MATERIAL_PRESETS : List (String × MaterialPreset) :=
  [("Tungsten", { mass := 5000, elasticity := 0.1, friction := 0.8,
                  airResistance := 0.001, buoyancy := 0.0,
                  tensileStrength := 0.95, viscosity := 0.01 }),
   ("Rubber", { mass := 800, elasticity := 0.95, friction := 0.4,
                airResistance := 0.01, buoyancy := 0.6,
                tensileStrength := 0.4, viscosity := 0.05 }),
   ("Ghost", { mass := 10, elasticity := 1.0, friction := 0.0,
               airResistance := 0.0, buoyancy := 1.2,
               tensileStrength := 0.1, viscosity := 0.0 }),
   ("Plasma", { mass := 100, elasticity := 0.5, friction := 0.1,
                airResistance := 0.05, buoyancy := 0.8,
                tensileStrength := 1.0, viscosity := 0.2 }),
   ("Default", { mass := 1000, elasticity := 0.8, friction := 0.1,
                 airResistance := 0.005, buoyancy := 0.5,
                 tensileStrength := 0.8, viscosity := 0.05 })]

/-- The material-picker handler of `App` (source line 602) applied to one
entity: the JavaScript spread `{ ...x, ...MATERIAL_PRESETS[m] }`, which
overwrites exactly the seven fields a preset defines. -/
def applyPreset (m : MaterialPreset) (x : PhysicsEntity) : PhysicsEntity :=
  { x with
      mass := m.mass
      elasticity := m.elasticity
      friction := m.friction
      airResistance := m.airResistance
      buoyancy := m.buoyancy
      tensileStrength := m.tensileStrength
      viscosity := m.viscosity }

/-- The material-picker handler over the whole store: only the entity with
the selected id is rewritten. -/
def applyPresetStore (m : MaterialPreset) (selId : ℕ)
    (ps : List PhysicsEntity) : List PhysicsEntity :=
  ps.map (fun x => if x.id = selId then applyPreset m x else x)

/-- An entity as actually built by the `spawn_kinetic_node` branch of
`handleTool` (source lines 462-471).  The object literal spreads
`MATERIAL_PRESETS[mat]`; when that lookup is `undefined` the spread adds
nothing, so every coefficient field is optional here — `none` models a field
the spread left `undefined` (`damping` is `none` even for valid presets,
since no preset defines it). -/
structure SpawnedNode where
  id : ℕ
  layerId : String
  type : String
  x : ℝ
  y : ℝ
  z : ℝ
  vx : ℝ
  vy : ℝ
  vz : ℝ
  size : ℝ
  mass : Option ℝ
  elasticity : Option ℝ
  friction : Option ℝ
  damping : Option ℝ
  airResistance : Option ℝ
  viscosity : Option ℝ
  tensileStrength : Option ℝ
  buoyancy : Option ℝ
  stress : ℝ
  history : List ℝ

/-- The `spawn_kinetic_node` branch of `handleTool`: default the material
name when falsy (`(fc.args.material) || 'Default'`), default the layer the
same way, then append the new node built from structural defaults plus the
spread of the (possibly missing) preset. -/
def spawnKineticNode (material layer : String) (id : ℕ) (vx vy : ℝ)
    (prev : List SpawnedNode) : List SpawnedNode :=
  let mat := if material = "" then "Default" else material
  let layerId := if layer = "" then "DEFAULT" else layer
  let preset := MATERIAL_PRESETS.lookup mat
  prev ++ [{ id := id, layerId := layerId, type := "sphere",
             x := 250, y := 150, z := 0, vx := vx, vy := vy, vz := 0,
             size := 50,
             mass := preset.map MaterialPreset.mass,
             elasticity := preset.map MaterialPreset.elasticity,
             friction := preset.map MaterialPreset.friction,
             damping := none,
             airResistance := preset.map MaterialPreset.airResistance,
             viscosity := preset.map MaterialPreset.viscosity,
             tensileStrength := preset.map MaterialPreset.tensileStrength,
             buoyancy := preset.map MaterialPreset.buoyancy,
             stress := 0, history := [] }]

/-- The hit test of the `onMouseDown` handler (source line 330). -/
def hitTest (mx my : ℝ) (p : PhysicsEntity) : Prop :=
  Real.sqrt ((mx - p.x) ^ 2 + (my - p.y) ^ 2) < p.size + 20

instance (mx my : ℝ) (p : PhysicsEntity) : Decidable (hitTest mx my p) :=
  inferInstanceAs (Decidable (_ < _))

/-- Outcome of the `onMouseDown` handler: the entity list after the
`forEach` (drag flags set), the selection after the last `onSelectEntity`
call (`none` models `onSelectEntity(null)`), and whether `onDragState(true)`
fired. -/
structure DownResult where
  entities : List PhysicsEntity
  selected : Option ℕ
  dragging : Bool

/-- The `onMouseDown` handler of `PhysicsArena` (source lines 325-336):
every entity passing the hit test gets `isDragging := true` and a
`onSelectEntity(p.id)` call (last call wins); if none passed, the selection
is cleared. -/
def onMouseDown (mx my : ℝ) (ps : List PhysicsEntity) : DownResult :=
  let r := ps.foldl
    (fun (acc : List PhysicsEntity × Option ℕ × Bool) p =>
      if hitTest mx my p then
        (acc.1 ++ [{ p with isDragging := true }], some p.id, true)
      else
        (acc.1 ++ [p], acc.2.1, acc.2.2))
    ([], none, false)
  { entities := r.1
    selected := if r.2.2 then r.2.1 else none
    dragging := r.2.2 }

/-- State of a lone entity just before the boundary checks of a sub-step:
forces applied, position updated, stress decayed. -/
def preBound (cfg : SimConfig) (q : PhysicsEntity) : PhysicsEntity :=
  moveAndDecay cfg.stepSize
    (applyForces (resolveLayer cfg q.layerId) cfg.mouseX cfg.mouseY
      cfg.height cfg.stepSize q)

/-- The entity is strictly inside (or on) the viewport bounds, so that none
of the four reflective boundary branches fires. -/
def inBox (cfg : SimConfig) (q : PhysicsEntity) : Prop :=
  q.y ≤ cfg.height ∧ 0 ≤ q.y ∧ q.x ≤ cfg.width ∧ 0 ≤ q.x

/-- A lone entity advanced by `k` sub-steps of the engine, the sub-step
index cycling through `0, …, subSteps - 1` exactly as the frame loop does.
`framesN` on a singleton store agrees with this flattened run
(`soloRun_frames` below). -/
def soloRun (cfg : SimConfig) (p : PhysicsEntity) : ℕ → PhysicsEntity
  | 0 => p
  | k + 1 => integrateIn cfg (k % cfg.subSteps) (soloRun cfg p k)

/-- `q` agrees with `p` on identity, coefficients, drag flag and the unused
`z` axis — every field the integration stages may not touch. -/
def sameCore (p q : PhysicsEntity) : Prop :=
  q.id = p.id ∧ q.layerId = p.layerId ∧ q.type = p.type ∧ q.z = p.z ∧
  q.vz = p.vz ∧ q.size = p.size ∧ q.mass = p.mass ∧
  q.elasticity = p.elasticity ∧ q.friction = p.friction ∧
  q.damping = p.damping ∧ q.airResistance = p.airResistance ∧
  q.viscosity = p.viscosity ∧ q.tensileStrength = p.tensileStrength ∧
  q.buoyancy = p.buoyancy ∧ q.isDragging = p.isDragging

/-! ### Helper lemmas -/

theorem sameCore_refl (p : PhysicsEntity) : sameCore p p :=
  ⟨rfl, rfl, rfl, rfl, rfl, rfl, rfl, rfl, rfl, rfl, rfl, rfl, rfl, rfl, rfl⟩

theorem sameCore_trans {p q r : PhysicsEntity} (h1 : sameCore p q)
    (h2 : sameCore q r) : sameCore p r := by
  obtain ⟨a1, a2, a3, a4, a5, a6, a7, a8, a9, a10, a11, a12, a13, a14, a15⟩ := h1
  obtain ⟨b1, b2, b3, b4, b5, b6, b7, b8, b9, b10, b11, b12, b13, b14, b15⟩ := h2
  exact ⟨b1.trans a1, b2.trans a2, b3.trans a3, b4.trans a4, b5.trans a5,
    b6.trans a6, b7.trans a7, b8.trans a8, b9.trans a9, b10.trans a10,
    b11.trans a11, b12.trans a12, b13.trans a13, b14.trans a14, b15.trans a15⟩

/-- Setting an index back to the value it already holds is a no-op. -/
theorem set_getElem?_self {α : Type _} {l : List α} {i : ℕ} {a : α}
    (h : l[i]? = some a) : l.set i a = l := by
  induction l generalizing i with
  | nil => simp at h
  | cons x xs ih =>
    cases i with
    | zero => simp at h; simp [List.set, h]
    | succ n => simp at h ⊢; exact ih h

/-- Collision resolution never touches the identity, coefficient, drag-flag,
`z`-axis or history fields of the first body. -/
theorem resolveCollision_fields_fst (a b : PhysicsEntity) :
    (resolveCollision a b).1.id = a.id ∧
    (resolveCollision a b).1.layerId = a.layerId ∧
    (resolveCollision a b).1.type = a.type ∧
    (resolveCollision a b).1.z = a.z ∧
    (resolveCollision a b).1.vz = a.vz ∧
    (resolveCollision a b).1.size = a.size ∧
    (resolveCollision a b).1.mass = a.mass ∧
    (resolveCollision a b).1.elasticity = a.elasticity ∧
    (resolveCollision a b).1.friction = a.friction ∧
    (resolveCollision a b).1.damping = a.damping ∧
    (resolveCollision a b).1.airResistance = a.airResistance ∧
    (resolveCollision a b).1.viscosity = a.viscosity ∧
    (resolveCollision a b).1.tensileStrength = a.tensileStrength ∧
    (resolveCollision a b).1.buoyancy = a.buoyancy ∧
    (resolveCollision a b).1.isDragging = a.isDragging ∧
    (resolveCollision a b).1.history = a.history := by
  unfold resolveCollision
  dsimp only
  split
  · exact ⟨rfl, rfl, rfl, rfl, rfl, rfl, rfl, rfl, rfl, rfl, rfl, rfl, rfl,
      rfl, rfl, rfl⟩
  · exact ⟨rfl, rfl, rfl, rfl, rfl, rfl, rfl, rfl, rfl, rfl, rfl, rfl, rfl,
      rfl, rfl, rfl⟩

/-- Collision resolution never touches the identity, coefficient, drag-flag,
`z`-axis or history fields of the second body. -/
theorem resolveCollision_fields_snd (a b : PhysicsEntity) :
    (resolveCollision a b).2.id = b.id ∧
    (resolveCollision a b).2.layerId = b.layerId ∧
    (resolveCollision a b).2.type = b.type ∧
    (resolveCollision a b).2.z = b.z ∧
    (resolveCollision a b).2.vz = b.vz ∧
    (resolveCollision a b).2.size = b.size ∧
    (resolveCollision a b).2.mass = b.mass ∧
    (resolveCollision a b).2.elasticity = b.elasticity ∧
    (resolveCollision a b).2.friction = b.friction ∧
    (resolveCollision a b).2.damping = b.damping ∧
    (resolveCollision a b).2.airResistance = b.airResistance ∧
    (resolveCollision a b).2.viscosity = b.viscosity ∧
    (resolveCollision a b).2.tensileStrength = b.tensileStrength ∧
    (resolveCollision a b).2.buoyancy = b.buoyancy ∧
    (resolveCollision a b).2.isDragging = b.isDragging ∧
    (resolveCollision a b).2.history = b.history := by
  unfold resolveCollision
  dsimp only
  split
  · exact ⟨rfl, rfl, rfl, rfl, rfl, rfl, rfl, rfl, rfl, rfl, rfl, rfl, rfl,
      rfl, rfl, rfl⟩
  · exact ⟨rfl, rfl, rfl, rfl, rfl, rfl, rfl, rfl, rfl, rfl, rfl, rfl, rfl,
      rfl, rfl, rfl⟩

theorem applyForces_core (env : Layer) (mx my h dt : ℝ) (p : PhysicsEntity) :
    sameCore p (applyForces env mx my h dt p) := by
  unfold applyForces
  dsimp only
  split <;>
    exact ⟨rfl, rfl, rfl, rfl, rfl, rfl, rfl, rfl, rfl, rfl, rfl, rfl, rfl, rfl, rfl⟩

theorem moveAndDecay_core (dt : ℝ) (p : PhysicsEntity) :
    sameCore p (moveAndDecay dt p) :=
  ⟨rfl, rfl, rfl, rfl, rfl, rfl, rfl, rfl, rfl, rfl, rfl, rfl, rfl, rfl, rfl⟩

theorem boundBottom_core (h : ℝ) (p : PhysicsEntity) :
    sameCore p (boundBottom h p) := by
  unfold boundBottom
  split <;>
    exact ⟨rfl, rfl, rfl, rfl, rfl, rfl, rfl, rfl, rfl, rfl, rfl, rfl, rfl, rfl, rfl⟩

theorem boundTop_core (p : PhysicsEntity) : sameCore p (boundTop p) := by
  unfold boundTop
  split <;>
    exact ⟨rfl, rfl, rfl, rfl, rfl, rfl, rfl, rfl, rfl, rfl, rfl, rfl, rfl, rfl, rfl⟩

theorem boundRight_core (w : ℝ) (p : PhysicsEntity) :
    sameCore p (boundRight w p) := by
  unfold boundRight
  split <;>
    exact ⟨rfl, rfl, rfl, rfl, rfl, rfl, rfl, rfl, rfl, rfl, rfl, rfl, rfl, rfl, rfl⟩

theorem boundLeft_core (p : PhysicsEntity) : sameCore p (boundLeft p) := by
  unfold boundLeft
  split <;>
    exact ⟨rfl, rfl, rfl, rfl, rfl, rfl, rfl, rfl, rfl, rfl, rfl, rfl, rfl, rfl, rfl⟩

theorem applyBounds_core (w h : ℝ) (p : PhysicsEntity) :
    sameCore p (applyBounds w h p) :=
  sameCore_trans (sameCore_trans (sameCore_trans (boundBottom_core h p)
    (boundTop_core _)) (boundRight_core w _)) (boundLeft_core _)

theorem captureTelemetry_core (s : ℕ) (p : PhysicsEntity) :
    sameCore p (captureTelemetry s p) := by
  unfold captureTelemetry
  split <;>
    exact ⟨rfl, rfl, rfl, rfl, rfl, rfl, rfl, rfl, rfl, rfl, rfl, rfl, rfl, rfl, rfl⟩

/-- Per-entity integration never touches the identity, coefficient or
drag-flag fields. -/
theorem integrate_core (env : Layer) (mx my w h dt : ℝ) (s : ℕ)
    (p : PhysicsEntity) : sameCore p (integrate env mx my w h dt s p) :=
  sameCore_trans
    (sameCore_trans
      (sameCore_trans (applyForces_core env mx my h dt p)
        (moveAndDecay_core dt _))
      (applyBounds_core w h _))
    (captureTelemetry_core s _)

theorem applyForces_stress (env : Layer) (mx my h dt : ℝ) (p : PhysicsEntity) :
    (applyForces env mx my h dt p).stress = p.stress := by
  unfold applyForces
  split <;> rfl

theorem applyBounds_stress (w h : ℝ) (p : PhysicsEntity) :
    (applyBounds w h p).stress = p.stress := by
  unfold applyBounds boundLeft boundRight boundTop boundBottom
  split <;> split <;> split <;> split <;> rfl

theorem captureTelemetry_stress (s : ℕ) (p : PhysicsEntity) :
    (captureTelemetry s p).stress = p.stress := by
  unfold captureTelemetry
  split <;> rfl

/-- The stress produced by one integration step is exactly the decayed,
zero-clamped stress of the input. -/
theorem integrate_stress (env : Layer) (mx my w h dt : ℝ) (s : ℕ)
    (p : PhysicsEntity) :
    (integrate env mx my w h dt s p).stress = max 0 (p.stress * 0.96) := by
  unfold integrate
  rw [captureTelemetry_stress, applyBounds_stress]
  show (moveAndDecay dt _).stress = _
  rw [show ∀ q : PhysicsEntity, (moveAndDecay dt q).stress = max 0 (q.stress * 0.96) from fun _ => rfl,
    applyForces_stress]

theorem pairStep_length (acc : List PhysicsEntity) (i j : ℕ) :
    (pairStep acc i j).length = acc.length := by
  unfold pairStep
  rcases hA : acc[i]? with _ | a <;> rcases hB : acc[j]? with _ | b <;>
    simp [List.length_set]

/-- A projection that collision resolution preserves on both bodies is
preserved at every index by one `pairStep`. -/
theorem pairStep_proj {α : Type _} (f : PhysicsEntity → α)
    (h1 : ∀ a b, f (resolveCollision a b).1 = f a)
    (h2 : ∀ a b, f (resolveCollision a b).2 = f b)
    (acc : List PhysicsEntity) (i' j' i : ℕ) :
    ((pairStep acc i' j')[i]?).map f = (acc[i]?).map f := by
  unfold pairStep
  rcases hA : acc[i']? with _ | a <;> rcases hB : acc[j']? with _ | b <;>
    try rfl
  rcases eq_or_ne j' i with hji | hji
  · subst hji
    have hlen : j' < acc.length := by
      rcases List.getElem?_eq_some.mp hB with ⟨h, _⟩; exact h
    rw [List.getElem?_set_self (by simpa [List.length_set] using hlen), hB]
    simp [h2 a b]
  · rw [List.getElem?_set_ne hji]
    rcases eq_or_ne i' i with hii | hii
    · subst hii
      have hlen : i' < acc.length := by
        rcases List.getElem?_eq_some.mp hA with ⟨h, _⟩; exact h
      rw [List.getElem?_set_self hlen, hA]
      simp [h1 a b]
    · rw [List.getElem?_set_ne hii]

/-- A predicate that collision resolution preserves on both bodies is
preserved at every index by one `pairStep` — using only the predicate at
that same index. -/
theorem pairStep_pred (P : PhysicsEntity → Prop)
    (h1 : ∀ a b, P a → P (resolveCollision a b).1)
    (h2 : ∀ a b, P b → P (resolveCollision a b).2)
    (acc : List PhysicsEntity) (i' j' i : ℕ)
    (h : ∀ q, acc[i]? = some q → P q) :
    ∀ q, (pairStep acc i' j')[i]? = some q → P q := by
  unfold pairStep
  rcases hA : acc[i']? with _ | a <;> rcases hB : acc[j']? with _ | b <;>
    try exact h
  intro q hq
  rcases eq_or_ne j' i with hji | hji
  · subst hji
    have hlen : j' < acc.length := by
      rcases List.getElem?_eq_some.mp hB with ⟨hl, _⟩; exact hl
    rw [List.getElem?_set_self (by simpa [List.length_set] using hlen)] at hq
    cases hq
    exact h2 a b (h b hB)
  · rw [List.getElem?_set_ne hji] at hq
    rcases eq_or_ne i' i with hii | hii
    · subst hii
      have hlen : i' < acc.length := by
        rcases List.getElem?_eq_some.mp hA with ⟨hl, _⟩; exact hl
      rw [List.getElem?_set_self hlen] at hq
      cases hq
      exact h1 a b (h a hA)
    · rw [List.getElem?_set_ne hii] at hq
      exact h q hq

theorem pairFold_proj {α : Type _} (f : PhysicsEntity → α)
    (h1 : ∀ a b, f (resolveCollision a b).1 = f a)
    (h2 : ∀ a b, f (resolveCollision a b).2 = f b)
    (L : List (ℕ × ℕ)) :
    ∀ (acc : List PhysicsEntity) (i : ℕ),
      ((L.foldl (fun acc ij => pairStep acc ij.1 ij.2) acc)[i]?).map f
        = (acc[i]?).map f := by
  induction L with
  | nil => intro acc i; rfl
  | cons ij L ih =>
    intro acc i
    rw [List.foldl_cons, ih, pairStep_proj f h1 h2]

theorem pairFold_pred (P : PhysicsEntity → Prop)
    (h1 : ∀ a b, P a → P (resolveCollision a b).1)
    (h2 : ∀ a b, P b → P (resolveCollision a b).2)
    (L : List (ℕ × ℕ)) :
    ∀ (acc : List PhysicsEntity) (i : ℕ),
      (∀ q, acc[i]? = some q → P q) →
      ∀ q, (L.foldl (fun acc ij => pairStep acc ij.1 ij.2) acc)[i]? = some q → P q := by
  induction L with
  | nil => intro acc i h; exact h
  | cons ij L ih =>
    intro acc i h
    rw [List.foldl_cons]
    exact ih _ i (pairStep_pred P h1 h2 acc ij.1 ij.2 i h)

theorem pairFold_length (L : List (ℕ × ℕ)) :
    ∀ acc : List PhysicsEntity,
      (L.foldl (fun acc ij => pairStep acc ij.1 ij.2) acc).length = acc.length := by
  induction L with
  | nil => intro acc; rfl
  | cons ij L ih =>
    intro acc
    rw [List.foldl_cons, ih, pairStep_length]

theorem collisionPass_proj {α : Type _} (f : PhysicsEntity → α)
    (h1 : ∀ a b, f (resolveCollision a b).1 = f a)
    (h2 : ∀ a b, f (resolveCollision a b).2 = f b)
    (ps : List PhysicsEntity) (i : ℕ) :
    ((collisionPass ps)[i]?).map f = (ps[i]?).map f :=
  pairFold_proj f h1 h2 _ ps i

theorem collisionPass_pred (P : PhysicsEntity → Prop)
    (h1 : ∀ a b, P a → P (resolveCollision a b).1)
    (h2 : ∀ a b, P b → P (resolveCollision a b).2)
    (ps : List PhysicsEntity) (i : ℕ)
    (h : ∀ q, ps[i]? = some q → P q) :
    ∀ q, (collisionPass ps)[i]? = some q → P q :=
  pairFold_pred P h1 h2 _ ps i h

theorem collisionPass_length (ps : List PhysicsEntity) :
    (collisionPass ps).length = ps.length :=
  pairFold_length _ ps

theorem subStepAt_length (cfg : SimConfig) (s : ℕ) (ps : List PhysicsEntity) :
    (subStepAt cfg s ps).length = ps.length := by
  unfold subStepAt
  rw [List.length_map, collisionPass_length]

theorem subStepRun_succ (cfg : SimConfig) (k : ℕ) (ps : List PhysicsEntity) :
    subStepRun cfg (k + 1) ps = subStepAt cfg k (subStepRun cfg k ps) := by
  unfold subStepRun
  rw [List.range_succ, List.foldl_append]
  rfl

theorem subStepRun_length (cfg : SimConfig) (k : ℕ) (ps : List PhysicsEntity) :
    (subStepRun cfg k ps).length = ps.length := by
  induction k with
  | zero => rfl
  | succ k ih => rw [subStepRun_succ, subStepAt_length, ih]

theorem frameStep_length (cfg : SimConfig) (ps : List PhysicsEntity) :
    (frameStep cfg ps).length = ps.length :=
  subStepRun_length cfg cfg.subSteps ps

theorem framesN_length (cfg : SimConfig) (n : ℕ) (ps : List PhysicsEntity) :
    (framesN cfg n ps).length = ps.length := by
  induction n with
  | zero => rfl
  | succ n ih => rw [framesN, frameStep_length, ih]

theorem pairIndices_lt {n : ℕ} {ij : ℕ × ℕ} (h : ij ∈ pairIndices n) :
    ij.1 < ij.2 := by
  unfold pairIndices at h
  rw [List.mem_flatten] at h
  obtain ⟨l, hl, hij⟩ := h
  rw [List.mem_map] at hl
  obtain ⟨i, _, rfl⟩ := hl
  rw [List.mem_filterMap] at hij
  obtain ⟨j, _, hj⟩ := hij
  by_cases hlt : i < j
  · rw [if_pos hlt] at hj
    cases hj
    exact hlt
  · rw [if_neg hlt] at hj
    cases hj

theorem resolveCollision_of_not_contact {a b : PhysicsEntity}
    (h : ¬ inContact a b) : resolveCollision a b = (a, b) := by
  unfold inContact at h
  unfold resolveCollision
  dsimp only
  rw [if_neg h]

theorem boundBottom_eq_self {h : ℝ} {p : PhysicsEntity} (hy : p.y ≤ h) :
    boundBottom h p = p := by
  unfold boundBottom
  rw [if_neg (not_lt.mpr hy)]

theorem boundTop_eq_self {p : PhysicsEntity} (hy : 0 ≤ p.y) :
    boundTop p = p := by
  unfold boundTop
  rw [if_neg (not_lt.mpr hy)]

theorem boundRight_eq_self {w : ℝ} {p : PhysicsEntity} (hx : p.x ≤ w) :
    boundRight w p = p := by
  unfold boundRight
  rw [if_neg (not_lt.mpr hx)]

theorem boundLeft_eq_self {p : PhysicsEntity} (hx : 0 ≤ p.x) :
    boundLeft p = p := by
  unfold boundLeft
  rw [if_neg (not_lt.mpr hx)]

/-- When the entity is inside the viewport no boundary branch fires. -/
theorem applyBounds_eq_self {w h : ℝ} {p : PhysicsEntity}
    (h1 : p.y ≤ h) (h2 : 0 ≤ p.y) (h3 : p.x ≤ w) (h4 : 0 ≤ p.x) :
    applyBounds w h p = p := by
  unfold applyBounds
  rw [boundBottom_eq_self h1, boundTop_eq_self h2, boundRight_eq_self h3,
    boundLeft_eq_self h4]

theorem applyForces_x (env : Layer) (mx my h dt : ℝ) (p : PhysicsEntity) :
    (applyForces env mx my h dt p).x = p.x := by
  unfold applyForces
  dsimp only
  split <;> rfl

theorem applyForces_y (env : Layer) (mx my h dt : ℝ) (p : PhysicsEntity) :
    (applyForces env mx my h dt p).y = p.y := by
  unfold applyForces
  dsimp only
  split <;> rfl

/-- With no drag force, no buoyancy, no damping and no viscous or air drag,
the velocity update is pure explicit-Euler gravity accumulation. -/
theorem applyForces_vy_gravity (env : Layer) (mx my h dt : ℝ)
    (p : PhysicsEntity) (hd : p.isDragging = false) (hb : p.buoyancy = 0)
    (hdamp : p.damping = 0) (hair : p.airResistance * env.atmDensity = 0)
    (hvisc : p.viscosity * env.viscosity = 0) :
    (applyForces env mx my h dt p).vy = p.vy + env.gravityY * dt := by
  unfold applyForces
  rw [hd]
  simp only [Bool.false_eq_true, if_false]
  rw [hb, hdamp, hair, hvisc]
  ring

theorem captureTelemetry_vy (s : ℕ) (p : PhysicsEntity) :
    (captureTelemetry s p).vy = p.vy := by
  unfold captureTelemetry
  split <;> rfl

theorem moveAndDecay_vy (dt : ℝ) (p : PhysicsEntity) :
    (moveAndDecay dt p).vy = p.vy := rfl

/-- No pair of the collision loop fires when every pair of stored entities
is separated by at least half the sum of their sizes, so the pass is the
identity. -/
theorem collisionPass_of_separated (ps : List PhysicsEntity)
    (h : ∀ i j : ℕ, i < j → ∀ p q, ps[i]? = some p → ps[j]? = some q →
      ¬ inContact p q) :
    collisionPass ps = ps := by
  unfold collisionPass
  have key : ∀ L : List (ℕ × ℕ), (∀ ij ∈ L, ij.1 < ij.2) →
      L.foldl (fun acc ij => pairStep acc ij.1 ij.2) ps = ps := by
    intro L hL
    induction L with
    | nil => rfl
    | cons ij L ih =>
      rw [List.foldl_cons]
      have hstep : pairStep ps ij.1 ij.2 = ps := by
        unfold pairStep
        rcases hA : ps[ij.1]? with _ | a
        · rfl
        rcases hB : ps[ij.2]? with _ | b
        · rfl
        dsimp only
        rw [resolveCollision_of_not_contact
          (h ij.1 ij.2 (hL ij (List.mem_cons_self ij L)) a b hA hB)]
        rw [set_getElem?_self hA]
        exact set_getElem?_self hB
      rw [hstep]
      exact ih (fun x hx => hL x (List.mem_cons_of_mem _ hx))
  exact key _ (fun ij hij => pairIndices_lt hij)

theorem collisionPass_singleton (p : PhysicsEntity) :
    collisionPass [p] = [p] := rfl

theorem subStepAt_singleton (cfg : SimConfig) (s : ℕ) (p : PhysicsEntity) :
    subStepAt cfg s [p] = [integrateIn cfg s p] := by
  unfold subStepAt
  rw [collisionPass_singleton]
  rfl

theorem subStepRun_solo (cfg : SimConfig) (p : PhysicsEntity) (m : ℕ) :
    ∀ k, k ≤ cfg.subSteps →
      subStepRun cfg k [soloRun cfg p (m * cfg.subSteps)]
        = [soloRun cfg p (m * cfg.subSteps + k)] := by
  intro k
  induction k with
  | zero => intro _; rfl
  | succ k ih =>
    intro hk
    rw [subStepRun_succ, ih (Nat.le_of_succ_le hk), subStepAt_singleton]
    have hmod : (m * cfg.subSteps + k) % cfg.subSteps = k := by
      rw [Nat.mul_comm, Nat.mul_add_mod]
      exact Nat.mod_eq_of_lt (Nat.lt_of_succ_le hk)
    have hstep : soloRun cfg p (m * cfg.subSteps + (k + 1))
        = integrateIn cfg ((m * cfg.subSteps + k) % cfg.subSteps)
            (soloRun cfg p (m * cfg.subSteps + k)) := rfl
    rw [hstep, hmod]

/-- On a one-entity store the frame loop is exactly the flattened solo run:
no pair ever enters the collision loop. -/
theorem framesN_solo (cfg : SimConfig) (p : PhysicsEntity) (n : ℕ) :
    framesN cfg n [p] = [soloRun cfg p (n * cfg.subSteps)] := by
  induction n with
  | zero => rw [Nat.zero_mul]; rfl
  | succ n ih =>
    show frameStep cfg (framesN cfg n [p]) = _
    rw [ih]
    unfold frameStep
    rw [subStepRun_solo cfg p n cfg.subSteps le_rfl, Nat.succ_mul]

/-- The default entity of the simulation bootstrap (`App`'s initial
`physics` state), reused as the concrete input of the witness instances. -/
def baseEntity : PhysicsEntity :=
  { id := 1, layerId := "DEFAULT", type := "sphere", x := 250, y := 150,
    z := 0, vx := 2, vy := 0, vz := 0, size := 50, mass := 1000,
    elasticity := 0.85, friction := 0.05, damping := 0.01,
    airResistance := 0.005, viscosity := 0.05, tensileStrength := 0.8,
    buoyancy := 0.5, isDragging := false, stress := 0, history := [] }

/-! ### Claim theorems -/

/-- C3: for two entities in contact with equal mass (positive, per the data
model) and elasticity 1, collision resolution exactly exchanges the two
velocity vectors. -/
theorem collision_equal_mass_exchanges (a b : PhysicsEntity)
    (hm : a.mass = b.mass) (hm0 : 0 < a.mass)
    (hea : a.elasticity = 1) (heb : b.elasticity = 1)
    (hc : inContact a b) :
    (resolveCollision a b).1.vx = b.vx ∧ (resolveCollision a b).1.vy = b.vy ∧
    (resolveCollision a b).2.vx = a.vx ∧ (resolveCollision a b).2.vy = a.vy := by
  unfold inContact at hc
  unfold resolveCollision
  dsimp only
  rw [if_pos hc]
  dsimp only
  have hb0 : b.mass + b.mass ≠ 0 := by
    have : 0 < b.mass := hm ▸ hm0
    positivity
  rw [hea, heb, hm]
  refine ⟨?_, ?_, ?_, ?_⟩ <;> field_simp <;> ring

/-- C3 witness: two coincident size-50 bodies of mass 1000 and elasticity 1
with velocities (2, 0) and (-3, 4) exactly swap velocities. -/
theorem collision_equal_mass_exchanges_witness :
    (resolveCollision { baseEntity with elasticity := 1 }
      { baseEntity with id := 2, x := 250, y := 150, vx := -3, vy := 4,
                        elasticity := 1 }).1.vx = -3 ∧
    (resolveCollision { baseEntity with elasticity := 1 }
      { baseEntity with id := 2, x := 250, y := 150, vx := -3, vy := 4,
                        elasticity := 1 }).1.vy = 4 ∧
    (resolveCollision { baseEntity with elasticity := 1 }
      { baseEntity with id := 2, x := 250, y := 150, vx := -3, vy := 4,
                        elasticity := 1 }).2.vx = 2 ∧
    (resolveCollision { baseEntity with elasticity := 1 }
      { baseEntity with id := 2, x := 250, y := 150, vx := -3, vy := 4,
                        elasticity := 1 }).2.vy = 0 :=
  collision_equal_mass_exchanges _ _ rfl (by norm_num [baseEntity]) rfl rfl
    (by unfold inContact baseEntity; norm_num)

/-- C10: for a collision between entities with elasticity 1 and positive
total mass, the velocity update conserves total momentum on each axis. -/
theorem collision_conserves_momentum (a b : PhysicsEntity)
    (hea : a.elasticity = 1) (heb : b.elasticity = 1)
    (hm : 0 < a.mass + b.mass) (hc : inContact a b) :
    a.mass * (resolveCollision a b).1.vx + b.mass * (resolveCollision a b).2.vx
      = a.mass * a.vx + b.mass * b.vx ∧
    a.mass * (resolveCollision a b).1.vy + b.mass * (resolveCollision a b).2.vy
      = a.mass * a.vy + b.mass * b.vy := by
  unfold inContact at hc
  unfold resolveCollision
  dsimp only
  rw [if_pos hc]
  dsimp only
  rw [hea, heb]
  have h0 : a.mass + b.mass ≠ 0 := ne_of_gt hm
  constructor <;> field_simp <;> ring

/-- C10 witness: a mass-1000 and a mass-3000 body, both of elasticity 1, in
contact, conserve momentum on both axes. -/
theorem collision_conserves_momentum_witness :
    (let a := { baseEntity with elasticity := 1 };
     let b := { baseEntity with id := 2, mass := 3000, vx := -3, vy := 4,
                                elasticity := 1 };
     a.mass * (resolveCollision a b).1.vx + b.mass * (resolveCollision a b).2.vx
       = a.mass * a.vx + b.mass * b.vx ∧
     a.mass * (resolveCollision a b).1.vy + b.mass * (resolveCollision a b).2.vy
       = a.mass * a.vy + b.mass * b.vy) :=
  collision_conserves_momentum _ _ rfl rfl (by norm_num [baseEntity])
    (by unfold inContact baseEntity; norm_num)

/-- C4: collision resolution does not fire on a pair at distance at least
half the sum of the sizes, and a store in which every pair is separated that
way is left completely unchanged by the collision pass. -/
theorem separated_pairs_unchanged (a b : PhysicsEntity)
    (hab : ¬ inContact a b) (ps : List PhysicsEntity)
    (hps : ∀ i j : ℕ, i < j → ∀ p q, ps[i]? = some p → ps[j]? = some q →
      ¬ inContact p q) :
    resolveCollision a b = (a, b) ∧ collisionPass ps = ps :=
  ⟨resolveCollision_of_not_contact hab, collisionPass_of_separated ps hps⟩

/-- C4 witness: two size-50 bodies 200 apart are untouched, singly and as a
store. -/
theorem separated_pairs_unchanged_witness :
    (resolveCollision baseEntity { baseEntity with id := 2, x := 450 }
      = (baseEntity, { baseEntity with id := 2, x := 450 })) ∧
    collisionPass [baseEntity, { baseEntity with id := 2, x := 450 }]
      = [baseEntity, { baseEntity with id := 2, x := 450 }] := by
  have h200 : Real.sqrt 40000 = 200 := by
    rw [show (40000 : ℝ) = 200 ^ 2 by norm_num]
    exact Real.sqrt_sq (by norm_num)
  have hsep : ¬ inContact baseEntity { baseEntity with id := 2, x := 450 } := by
    unfold inContact baseEntity
    norm_num
    rw [h200]
    norm_num
  refine separated_pairs_unchanged _ _ hsep _ ?_
  intro i j hij p q hp hq
  have hj2 : j < 2 := by
    by_contra hge
    rw [List.getElem?_eq_none (by simpa using Nat.le_of_not_lt hge)] at hq
    exact Option.noConfusion hq
  interval_cases j
  · omega
  · interval_cases i
    simp only [List.getElem?_cons_zero, List.getElem?_cons_succ,
      Option.some_inj] at hp hq
    rw [← hp, ← hq]
    exact hsep

/-- C7: when the position update leaves an entity past exactly one viewport
edge, boundary containment clamps the position to that edge and scales the
corresponding velocity component by minus the elasticity, leaving the other
velocity component (and the other axis) unchanged. -/
theorem boundary_reflects (w h : ℝ) (hw : 0 ≤ w) (hh : 0 ≤ h)
    (p : PhysicsEntity) :
    (p.y > h → ¬ p.x > w → ¬ p.x < 0 →
      applyBounds w h p = { p with y := h, vy := p.vy * (-p.elasticity) }) ∧
    (p.y < 0 → ¬ p.x > w → ¬ p.x < 0 →
      applyBounds w h p = { p with y := 0, vy := p.vy * (-p.elasticity) }) ∧
    (p.x > w → ¬ p.y > h → ¬ p.y < 0 →
      applyBounds w h p = { p with x := w, vx := p.vx * (-p.elasticity) }) ∧
    (p.x < 0 → ¬ p.y > h → ¬ p.y < 0 →
      applyBounds w h p = { p with x := 0, vx := p.vx * (-p.elasticity) }) := by
  refine ⟨?_, ?_, ?_, ?_⟩
  · intro h1 h2 h3
    have e1 : boundBottom h p = { p with y := h, vy := p.vy * (-p.elasticity) } := by
      unfold boundBottom; rw [if_pos h1]
    have e2 : boundTop { p with y := h, vy := p.vy * (-p.elasticity) }
        = { p with y := h, vy := p.vy * (-p.elasticity) } := boundTop_eq_self hh
    have e3 : boundRight w { p with y := h, vy := p.vy * (-p.elasticity) }
        = { p with y := h, vy := p.vy * (-p.elasticity) } :=
      boundRight_eq_self (not_lt.mp h2)
    have e4 : boundLeft { p with y := h, vy := p.vy * (-p.elasticity) }
        = { p with y := h, vy := p.vy * (-p.elasticity) } :=
      boundLeft_eq_self (not_lt.mp h3)
    unfold applyBounds
    rw [e1, e2, e3, e4]
  · intro h1 h2 h3
    have hyh : p.y ≤ h := le_trans (le_of_lt h1) hh
    have e1 : boundBottom h p = p := boundBottom_eq_self hyh
    have e2 : boundTop p = { p with y := 0, vy := p.vy * (-p.elasticity) } := by
      unfold boundTop; rw [if_pos h1]
    have e3 : boundRight w { p with y := 0, vy := p.vy * (-p.elasticity) }
        = { p with y := 0, vy := p.vy * (-p.elasticity) } :=
      boundRight_eq_self (not_lt.mp h2)
    have e4 : boundLeft { p with y := 0, vy := p.vy * (-p.elasticity) }
        = { p with y := 0, vy := p.vy * (-p.elasticity) } :=
      boundLeft_eq_self (not_lt.mp h3)
    unfold applyBounds
    rw [e1, e2, e3, e4]
  · intro h1 h2 h3
    have e1 : boundBottom h p = p := boundBottom_eq_self (not_lt.mp h2)
    have e2 : boundTop p = p := boundTop_eq_self (not_lt.mp h3)
    have e3 : boundRight w p = { p with x := w, vx := p.vx * (-p.elasticity) } := by
      unfold boundRight; rw [if_pos h1]
    have e4 : boundLeft { p with x := w, vx := p.vx * (-p.elasticity) }
        = { p with x := w, vx := p.vx * (-p.elasticity) } :=
      boundLeft_eq_self hw
    unfold applyBounds
    rw [e1, e2, e3, e4]
  · intro h1 h2 h3
    have hxw : p.x ≤ w := le_trans (le_of_lt h1) hw
    have e1 : boundBottom h p = p := boundBottom_eq_self (not_lt.mp h2)
    have e2 : boundTop p = p := boundTop_eq_self (not_lt.mp h3)
    have e3 : boundRight w p = p := boundRight_eq_self hxw
    have e4 : boundLeft p = { p with x := 0, vx := p.vx * (-p.elasticity) } := by
      unfold boundLeft; rw [if_pos h1]
    unfold applyBounds
    rw [e1, e2, e3, e4]

/-- C7 witness: an entity carried to x = 1100 in a 1000-wide viewport is
clamped to the right edge with vx scaled by minus its elasticity. -/
theorem boundary_reflects_witness :
    applyBounds 1000 1000 { baseEntity with x := 1100, vx := 7 }
      = { baseEntity with x := 1000, vx := 7 * (-(0.85 : ℝ)) } :=
  ((boundary_reflects 1000 1000 (by norm_num) (by norm_num)
      { baseEntity with x := 1100, vx := 7 }).2.2.1
    (by norm_num [baseEntity]) (by norm_num [baseEntity])
    (by norm_num [baseEntity]))

/-- C8: applying a catalog preset to an entity overwrites exactly the seven
coefficient fields the preset defines and leaves identity, position,
velocity, stress, history — and every other field — unchanged. -/
theorem preset_overwrites_exactly (name : String) (m : MaterialPreset)
    (hmem : (name, m) ∈ MATERIAL_PRESETS) (x : PhysicsEntity) :
    (applyPreset m x).mass = m.mass ∧
    (applyPreset m x).elasticity = m.elasticity ∧
    (applyPreset m x).friction = m.friction ∧
    (applyPreset m x).airResistance = m.airResistance ∧
    (applyPreset m x).buoyancy = m.buoyancy ∧
    (applyPreset m x).tensileStrength = m.tensileStrength ∧
    (applyPreset m x).viscosity = m.viscosity ∧
    (applyPreset m x).id = x.id ∧
    (applyPreset m x).x = x.x ∧
    (applyPreset m x).y = x.y ∧
    (applyPreset m x).z = x.z ∧
    (applyPreset m x).vx = x.vx ∧
    (applyPreset m x).vy = x.vy ∧
    (applyPreset m x).vz = x.vz ∧
    (applyPreset m x).stress = x.stress ∧
    (applyPreset m x).history = x.history ∧
    (applyPreset m x).damping = x.damping ∧
    (applyPreset m x).size = x.size ∧
    (applyPreset m x).layerId = x.layerId ∧
    (applyPreset m x).type = x.type ∧
    (applyPreset m x).isDragging = x.isDragging :=
  ⟨rfl, rfl, rfl, rfl, rfl, rfl, rfl, rfl, rfl, rfl, rfl, rfl, rfl, rfl, rfl,
    rfl, rfl, rfl, rfl, rfl, rfl⟩

/-- C8 witness: re-applying the `Tungsten` preset to the bootstrap entity
reads back Tungsten's coefficients and keeps everything else. -/
theorem preset_overwrites_exactly_witness :
    (applyPreset { mass := 5000, elasticity := 0.1, friction := 0.8,
                   airResistance := 0.001, buoyancy := 0.0,
                   tensileStrength := 0.95, viscosity := 0.01 }
        baseEntity).mass = 5000 ∧
    (applyPreset { mass := 5000, elasticity := 0.1, friction := 0.8,
                   airResistance := 0.001, buoyancy := 0.0,
                   tensileStrength := 0.95, viscosity := 0.01 }
        baseEntity).x = baseEntity.x ∧
    (applyPreset { mass := 5000, elasticity := 0.1, friction := 0.8,
                   airResistance := 0.001, buoyancy := 0.0,
                   tensileStrength := 0.95, viscosity := 0.01 }
        baseEntity).history = baseEntity.history := by
  have h := preset_overwrites_exactly "Tungsten"
    { mass := 5000, elasticity := 0.1, friction := 0.8,
      airResistance := 0.001, buoyancy := 0.0, tensileStrength := 0.95,
      viscosity := 0.01 }
    (by unfold MATERIAL_PRESETS; exact List.mem_cons_self _ _) baseEntity
  exact ⟨h.1, h.2.2.2.2.2.2.2.2.1, h.2.2.2.2.2.2.2.2.2.2.2.2.2.2.2.1⟩

/-- C5 (code bug): a spawn request naming the unknown material
`"Adamantium"` is not rejected — `handleTool` appends a node whose spread of
`MATERIAL_PRESETS["Adamantium"]` contributed nothing, so the stored entity
has every material coefficient missing instead of the full coefficient set
of a declared preset. -/
theorem spawn_unknown_material_adds_incomplete_entity :
    (spawnKineticNode "Adamantium" "DEFAULT" 99 3 4 []).length = 1 ∧
    ((spawnKineticNode "Adamantium" "DEFAULT" 99 3 4 [])[0]?).map
      SpawnedNode.mass = some none ∧
    ((spawnKineticNode "Adamantium" "DEFAULT" 99 3 4 [])[0]?).map
      SpawnedNode.elasticity = some none ∧
    ((spawnKineticNode "Adamantium" "DEFAULT" 99 3 4 [])[0]?).map
      SpawnedNode.friction = some none ∧
    ((spawnKineticNode "Adamantium" "DEFAULT" 99 3 4 [])[0]?).map
      SpawnedNode.airResistance = some none ∧
    ((spawnKineticNode "Adamantium" "DEFAULT" 99 3 4 [])[0]?).map
      SpawnedNode.viscosity = some none ∧
    ((spawnKineticNode "Adamantium" "DEFAULT" 99 3 4 [])[0]?).map
      SpawnedNode.tensileStrength = some none ∧
    ((spawnKineticNode "Adamantium" "DEFAULT" 99 3 4 [])[0]?).map
      SpawnedNode.buoyancy = some none :=
  ⟨rfl, rfl, rfl, rfl, rfl, rfl, rfl, rfl⟩

theorem resolveCollision_stress_fst (a b : PhysicsEntity)
    (ht : a.tensileStrength ≤ 1) (hs0 : 0 ≤ a.stress) (hs1 : a.stress ≤ 100) :
    0 ≤ (resolveCollision a b).1.stress ∧
    (resolveCollision a b).1.stress ≤ 100 := by
  unfold resolveCollision
  dsimp only
  split
  · dsimp only
    refine ⟨le_min (by norm_num) (add_nonneg hs0 (mul_nonneg
      (Real.sqrt_nonneg _) (by linarith))), min_le_left _ _⟩
  · exact ⟨hs0, hs1⟩

theorem resolveCollision_stress_snd (a b : PhysicsEntity)
    (ht : b.tensileStrength ≤ 1) (hs0 : 0 ≤ b.stress) (hs1 : b.stress ≤ 100) :
    0 ≤ (resolveCollision a b).2.stress ∧
    (resolveCollision a b).2.stress ≤ 100 := by
  unfold resolveCollision
  dsimp only
  split
  · dsimp only
    refine ⟨le_min (by norm_num) (add_nonneg hs0 (mul_nonneg
      (Real.sqrt_nonneg _) (by linarith))), min_le_left _ _⟩
  · exact ⟨hs0, hs1⟩

/-- C1: an entity whose tensile strength lies in [0,1] and whose stress
starts in [0,100] keeps its stress in [0,100] after any number of frames
(each of any number of sub-steps): every collision adds a nonnegative
`impactSpeed * (1 - tensileStrength)` clamped above at 100, and every
sub-step decays stress by 0.96 clamped below at 0. -/
theorem stress_always_bounded (cfg : SimConfig) (ps : List PhysicsEntity)
    (i : ℕ) (p0 : PhysicsEntity) (hp0 : ps[i]? = some p0)
    (ht0 : 0 ≤ p0.tensileStrength) (ht1 : p0.tensileStrength ≤ 1)
    (hs0 : 0 ≤ p0.stress) (hs1 : p0.stress ≤ 100) (n : ℕ) :
    ∀ q, (framesN cfg n ps)[i]? = some q →
      0 ≤ q.stress ∧ q.stress ≤ 100 := by
  set P : PhysicsEntity → Prop := fun q =>
    (0 ≤ q.tensileStrength ∧ q.tensileStrength ≤ 1) ∧
    (0 ≤ q.stress ∧ q.stress ≤ 100) with hPdef
  have hres1 : ∀ a b, P a → P (resolveCollision a b).1 := by
    intro a b hPa
    obtain ⟨⟨hta, htb⟩, hsa, hsb⟩ := hPa
    have hT := (resolveCollision_fields_fst a b).2.2.2.2.2.2.2.2.2.2.2.2.1
    exact ⟨by rw [hT]; exact ⟨hta, htb⟩,
      resolveCollision_stress_fst a b htb hsa hsb⟩
  have hres2 : ∀ a b, P b → P (resolveCollision a b).2 := by
    intro a b hPb
    obtain ⟨⟨hta, htb⟩, hsa, hsb⟩ := hPb
    have hT := (resolveCollision_fields_snd a b).2.2.2.2.2.2.2.2.2.2.2.2.1
    exact ⟨by rw [hT]; exact ⟨hta, htb⟩,
      resolveCollision_stress_snd a b htb hsa hsb⟩
  have hint : ∀ (s : ℕ) q, P q → P (integrateIn cfg s q) := by
    intro s q hq
    obtain ⟨⟨hta, htb⟩, hsa, hsb⟩ := hq
    constructor
    · have hT := (integrate_core (resolveLayer cfg q.layerId) cfg.mouseX
        cfg.mouseY cfg.width cfg.height cfg.stepSize s
        q).2.2.2.2.2.2.2.2.2.2.2.2.1
      unfold integrateIn
      rw [hT]
      exact ⟨hta, htb⟩
    · unfold integrateIn
      rw [integrate_stress]
      exact ⟨le_max_left _ _, max_le (by norm_num) (by linarith)⟩
  have hsubstep : ∀ (s : ℕ) (l : List PhysicsEntity),
      (∀ q, l[i]? = some q → P q) →
      ∀ q, (subStepAt cfg s l)[i]? = some q → P q := by
    intro s l hl q hq
    unfold subStepAt at hq
    rw [List.getElem?_map] at hq
    rcases hcol : (collisionPass l)[i]? with _ | q'
    · rw [hcol] at hq; cases hq
    · rw [hcol] at hq
      rw [show Option.map (integrateIn cfg s) (some q')
        = some (integrateIn cfg s q') from rfl] at hq
      cases hq
      exact hint s q' (collisionPass_pred P hres1 hres2 l i hl q' hcol)
  have hrun : ∀ (k : ℕ) (l : List PhysicsEntity),
      (∀ q, l[i]? = some q → P q) →
      ∀ q, (subStepRun cfg k l)[i]? = some q → P q := by
    intro k
    induction k with
    | zero => intro l hl; exact hl
    | succ k ih =>
      intro l hl q hq
      rw [subStepRun_succ] at hq
      exact hsubstep k _ (ih l hl) q hq
  have hframes : ∀ (m : ℕ) (l : List PhysicsEntity),
      (∀ q, l[i]? = some q → P q) →
      ∀ q, (framesN cfg m l)[i]? = some q → P q := by
    intro m
    induction m with
    | zero => intro l hl; exact hl
    | succ m ih =>
      intro l hl q hq
      rw [show framesN cfg (m + 1) l = frameStep cfg (framesN cfg m l)
        from rfl] at hq
      exact hrun cfg.subSteps _ (ih l hl) q hq
  intro q hq
  have hbase : ∀ q, ps[i]? = some q → P q := by
    intro q hq
    rw [hp0] at hq
    cases hq
    exact ⟨⟨ht0, ht1⟩, hs0, hs1⟩
  exact (hframes n ps hbase q hq).2

/-- The bootstrap DEFAULT layer of `App`. -/
def baseLayer : Layer :=
  { gravityX := 0, gravityY := 0.15, atmDensity := 1.0, viscosity := 0.1 }

/-- The bootstrap simulation parameters of `App`: the DEFAULT layer, a
1000 x 1000 viewport, temporalScale 1 and 4 sub-steps. -/
def baseConfig : SimConfig :=
  { layers := [("DEFAULT", baseLayer)], defaultLayer := baseLayer,
    mouseX := 0, mouseY := 0, width := 1000, height := 1000,
    stepSize := stepSizeOf 1 4, subSteps := 4 }

/-- C1 witness: the bootstrap entity keeps its stress in [0,100] over three
frames of the bootstrap configuration. -/
theorem stress_always_bounded_witness :
    0 ≤ (((framesN baseConfig 3 [baseEntity])[0]?).getD baseEntity).stress ∧
    (((framesN baseConfig 3 [baseEntity])[0]?).getD baseEntity).stress ≤ 100 := by
  rcases hq : (framesN baseConfig 3 [baseEntity])[0]? with _ | q
  · norm_num [baseEntity, Option.getD]
  · exact stress_always_bounded baseConfig [baseEntity] 0 baseEntity rfl
      (by norm_num [baseEntity]) (by norm_num [baseEntity])
      (by norm_num [baseEntity]) (by norm_num [baseEntity]) 3 q hq

theorem applyForces_history (env : Layer) (mx my h dt : ℝ) (p : PhysicsEntity) :
    (applyForces env mx my h dt p).history = p.history := by
  unfold applyForces
  dsimp only
  split <;> rfl

theorem moveAndDecay_history (dt : ℝ) (p : PhysicsEntity) :
    (moveAndDecay dt p).history = p.history := rfl

theorem applyBounds_history (w h : ℝ) (p : PhysicsEntity) :
    (applyBounds w h p).history = p.history := by
  unfold applyBounds boundLeft boundRight boundTop boundBottom
  split <;> split <;> split <;> split <;> rfl

theorem captureTelemetry_history_ne {s : ℕ} (hs : s ≠ 0) (p : PhysicsEntity) :
    (captureTelemetry s p).history = p.history := by
  unfold captureTelemetry
  rw [if_neg hs]

theorem captureTelemetry_zero_history (p : PhysicsEntity) :
    (captureTelemetry 0 p).history
      = p.history.drop (p.history.length - 19)
        ++ [0.5 * p.mass * (p.vx * p.vx + p.vy * p.vy) / 1000] := by
  unfold captureTelemetry
  rw [if_pos rfl]

theorem captureTelemetry_mass (s : ℕ) (p : PhysicsEntity) :
    (captureTelemetry s p).mass = p.mass := by
  unfold captureTelemetry
  split <;> rfl

theorem captureTelemetry_vx (s : ℕ) (p : PhysicsEntity) :
    (captureTelemetry s p).vx = p.vx := by
  unfold captureTelemetry
  split <;> rfl

/-- On any sub-step other than the first, integration leaves the telemetry
history untouched. -/
theorem integrate_history_ne (env : Layer) (mx my w h dt : ℝ) {s : ℕ}
    (hs : s ≠ 0) (p : PhysicsEntity) :
    (integrate env mx my w h dt s p).history = p.history := by
  unfold integrate
  rw [captureTelemetry_history_ne hs, applyBounds_history, moveAndDecay_history,
    applyForces_history]

/-- On the first sub-step, integration appends exactly one sample — the
scaled kinetic energy of the just-updated entity — at the end of the
history, evicting all but the last 19 old samples. -/
theorem integrateIn_zero_history (cfg : SimConfig) (p : PhysicsEntity) :
    (integrateIn cfg 0 p).history
      = p.history.drop (p.history.length - 19)
        ++ [0.5 * (integrateIn cfg 0 p).mass *
            ((integrateIn cfg 0 p).vx * (integrateIn cfg 0 p).vx
              + (integrateIn cfg 0 p).vy * (integrateIn cfg 0 p).vy) / 1000] := by
  unfold integrateIn integrate
  rw [captureTelemetry_zero_history, captureTelemetry_mass, captureTelemetry_vx,
    captureTelemetry_vy, applyBounds_history, moveAndDecay_history,
    applyForces_history]

theorem resolveCollision_history_fst (a b : PhysicsEntity) :
    (resolveCollision a b).1.history = a.history :=
  (resolveCollision_fields_fst a b).2.2.2.2.2.2.2.2.2.2.2.2.2.2.2

theorem resolveCollision_history_snd (a b : PhysicsEntity) :
    (resolveCollision a b).2.history = b.history :=
  (resolveCollision_fields_snd a b).2.2.2.2.2.2.2.2.2.2.2.2.2.2.2

/-- A sub-step other than the first leaves every entity's history untouched. -/
theorem subStepAt_history_ne (cfg : SimConfig) {s : ℕ} (hs : s ≠ 0)
    (l : List PhysicsEntity) (i : ℕ) :
    ((subStepAt cfg s l)[i]?).map PhysicsEntity.history
      = (l[i]?).map PhysicsEntity.history := by
  unfold subStepAt
  rw [List.getElem?_map, Option.map_map]
  have hcomp : (PhysicsEntity.history ∘ integrateIn cfg s)
      = PhysicsEntity.history := by
    funext q
    exact integrate_history_ne _ _ _ _ _ _ hs q
  rw [hcomp]
  exact collisionPass_proj PhysicsEntity.history resolveCollision_history_fst
    resolveCollision_history_snd l i

/-- C2: the telemetry history never exceeds 20 samples over any number of
frames, and one frame appends exactly one sample — the scaled kinetic
energy captured during the first sub-step — at the end, evicting the oldest
samples beyond the last 19 (FIFO, newest last). -/
theorem history_bounded_fifo (cfg : SimConfig) (hS : 1 ≤ cfg.subSteps)
    (ps : List PhysicsEntity) (h20 : ∀ p ∈ ps, p.history.length ≤ 20)
    (n : ℕ) (i : ℕ) (p0 q1 qf : PhysicsEntity)
    (hp0 : ps[i]? = some p0)
    (hq1 : (subStepAt cfg 0 ps)[i]? = some q1)
    (hqf : (frameStep cfg ps)[i]? = some qf) :
    (∀ q ∈ framesN cfg n ps, q.history.length ≤ 20) ∧
    qf.history = p0.history.drop (p0.history.length - 19)
      ++ [0.5 * q1.mass * (q1.vx * q1.vx + q1.vy * q1.vy) / 1000] := by
  constructor
  · -- bounded length, via the per-index invariant
    have hint : ∀ (s : ℕ) q, q.history.length ≤ 20 →
        (integrateIn cfg s q).history.length ≤ 20 := by
      intro s q hq
      rcases Nat.eq_zero_or_pos s with hs | hs
      · subst hs
        rw [integrateIn_zero_history]
        rw [List.length_append, List.length_drop]
        simp only [List.length_cons, List.length_nil]
        omega
      · unfold integrateIn
        rw [integrate_history_ne _ _ _ _ _ _ (Nat.pos_iff_ne_zero.mp hs)]
        exact hq
    have hres1 : ∀ a b : PhysicsEntity, a.history.length ≤ 20 →
        (resolveCollision a b).1.history.length ≤ 20 := by
      intro a b h
      rw [resolveCollision_history_fst]
      exact h
    have hres2 : ∀ a b : PhysicsEntity, b.history.length ≤ 20 →
        (resolveCollision a b).2.history.length ≤ 20 := by
      intro a b h
      rw [resolveCollision_history_snd]
      exact h
    have hsubstep : ∀ (s : ℕ) (l : List PhysicsEntity) (j : ℕ),
        (∀ q, l[j]? = some q → q.history.length ≤ 20) →
        ∀ q, (subStepAt cfg s l)[j]? = some q → q.history.length ≤ 20 := by
      intro s l j hl q hq
      unfold subStepAt at hq
      rw [List.getElem?_map] at hq
      rcases hcol : (collisionPass l)[j]? with _ | q'
      · rw [hcol] at hq; cases hq
      · rw [hcol] at hq
        rw [show Option.map (integrateIn cfg s) (some q')
          = some (integrateIn cfg s q') from rfl] at hq
        cases hq
        exact hint s q'
          (collisionPass_pred (fun q => q.history.length ≤ 20)
            hres1 hres2 l j hl q' hcol)
    have hrun : ∀ (k : ℕ) (l : List PhysicsEntity) (j : ℕ),
        (∀ q, l[j]? = some q → q.history.length ≤ 20) →
        ∀ q, (subStepRun cfg k l)[j]? = some q → q.history.length ≤ 20 := by
      intro k
      induction k with
      | zero => intro l j hl; exact hl
      | succ k ih =>
        intro l j hl q hq
        rw [subStepRun_succ] at hq
        exact hsubstep k _ j (fun q hq => ih l j hl q hq) q hq
    have hframes : ∀ (m : ℕ) (l : List PhysicsEntity) (j : ℕ),
        (∀ q, l[j]? = some q → q.history.length ≤ 20) →
        ∀ q, (framesN cfg m l)[j]? = some q → q.history.length ≤ 20 := by
      intro m
      induction m with
      | zero => intro l j hl; exact hl
      | succ m ih =>
        intro l j hl q hq
        rw [show framesN cfg (m + 1) l = frameStep cfg (framesN cfg m l)
          from rfl] at hq
        exact hrun cfg.subSteps _ j (fun q hq => ih l j hl q hq) q hq
    intro q hq
    obtain ⟨j, hj⟩ := List.mem_iff_getElem?.mp hq
    refine hframes n ps j ?_ q hj
    intro q' hq'
    exact h20 q' (List.mem_iff_getElem?.mpr ⟨j, hq'⟩)
  · -- FIFO append of exactly one kinetic-energy sample per frame
    -- the history after the whole frame equals the history after sub-step 0
    have hchain : ∀ k : ℕ, 1 ≤ k →
        ((subStepRun cfg k ps)[i]?).map PhysicsEntity.history
          = ((subStepAt cfg 0 ps)[i]?).map PhysicsEntity.history := by
      intro k
      induction k with
      | zero => intro hk; cases hk
      | succ k ih =>
        intro _
        rcases Nat.eq_zero_or_pos k with hk0 | hk1
        · subst hk0
          rw [subStepRun_succ]
          rfl
        · rw [subStepRun_succ,
            subStepAt_history_ne cfg (Nat.pos_iff_ne_zero.mp hk1)]
          exact ih hk1
    have hfq : qf.history = q1.history := by
      have h := hchain cfg.subSteps hS
      unfold frameStep at hqf
      rw [hqf, hq1] at h
      exact Option.some_inj.mp h
    -- the history after sub-step 0 is the FIFO update of the input history
    have hq1struct : q1.history = p0.history.drop (p0.history.length - 19)
        ++ [0.5 * q1.mass * (q1.vx * q1.vx + q1.vy * q1.vy) / 1000] := by
      unfold subStepAt at hq1
      rw [List.getElem?_map] at hq1
      rcases hcol : (collisionPass ps)[i]? with _ | c
      · rw [hcol] at hq1; cases hq1
      · rw [hcol] at hq1
        rw [show Option.map (integrateIn cfg 0) (some c)
          = some (integrateIn cfg 0 c) from rfl] at hq1
        cases hq1
        have hch : c.history = p0.history := by
          have h := collisionPass_proj PhysicsEntity.history
            resolveCollision_history_fst resolveCollision_history_snd ps i
          rw [hcol, hp0] at h
          exact Option.some_inj.mp h
        rw [integrateIn_zero_history, hch]
    rw [hfq, hq1struct]

theorem getElem?_zero_getD (l : List PhysicsEntity) (d : PhysicsEntity)
    (h : 0 < l.length) : l[0]? = some ((l[0]?).getD d) := by
  rcases hl : l[0]? with _ | q
  · rw [List.getElem?_eq_none_iff] at hl
    omega
  · rfl

/-- C2 witness: one frame of the bootstrap configuration on the bootstrap
entity appends exactly its kinetic-energy sample to the empty history, and
two frames keep every history within 20 samples. -/
theorem history_bounded_fifo_witness :
    (∀ q ∈ framesN baseConfig 2 [baseEntity], q.history.length ≤ 20) ∧
    (((frameStep baseConfig [baseEntity])[0]?).getD baseEntity).history
      = baseEntity.history.drop (baseEntity.history.length - 19)
        ++ [0.5 * (((subStepAt baseConfig 0 [baseEntity])[0]?).getD baseEntity).mass *
            ((((subStepAt baseConfig 0 [baseEntity])[0]?).getD baseEntity).vx *
              (((subStepAt baseConfig 0 [baseEntity])[0]?).getD baseEntity).vx
              + (((subStepAt baseConfig 0 [baseEntity])[0]?).getD baseEntity).vy *
                (((subStepAt baseConfig 0 [baseEntity])[0]?).getD baseEntity).vy)
            / 1000] :=
  history_bounded_fifo baseConfig (by norm_num [baseConfig]) [baseEntity]
    (by
      intro p hp
      rw [List.mem_singleton] at hp
      subst hp
      norm_num [baseEntity])
    2 0 baseEntity _ _ rfl
    (getElem?_zero_getD _ _ (by rw [subStepAt_length]; norm_num))
    (getElem?_zero_getD _ _ (by rw [frameStep_length]; norm_num))

/-- State of an undragged, buoyancy-free, drag-free lone entity after `N`
engine sub-steps, when no boundary branch ever fires: the coefficients are
untouched and vy accumulates `gravityY * stepSize` per sub-step. -/
theorem soloRun_gravity_state (cfg : SimConfig) (p : PhysicsEntity)
    (hd : p.isDragging = false) (hb : p.buoyancy = 0) (hdamp : p.damping = 0)
    (hair : p.airResistance * (resolveLayer cfg p.layerId).atmDensity = 0)
    (hvisc : p.viscosity * (resolveLayer cfg p.layerId).viscosity = 0) :
    ∀ N : ℕ, (∀ k, k < N → inBox cfg (preBound cfg (soloRun cfg p k))) →
      (soloRun cfg p N).layerId = p.layerId ∧
      (soloRun cfg p N).isDragging = false ∧
      (soloRun cfg p N).buoyancy = 0 ∧
      (soloRun cfg p N).damping = 0 ∧
      (soloRun cfg p N).airResistance = p.airResistance ∧
      (soloRun cfg p N).viscosity = p.viscosity ∧
      (soloRun cfg p N).vy = p.vy
        + (resolveLayer cfg p.layerId).gravityY * (N * cfg.stepSize) := by
  intro N
  induction N with
  | zero =>
    intro _
    refine ⟨rfl, hd, hb, hdamp, rfl, rfl, ?_⟩
    show p.vy = _
    push_cast
    ring
  | succ N ih =>
    intro hbox
    obtain ⟨hL, hD, hB, hDamp, hAir, hVisc, hVy⟩ :=
      ih (fun k hk => hbox k (Nat.lt_succ_of_lt hk))
    have hstep : soloRun cfg p (N + 1)
        = integrateIn cfg (N % cfg.subSteps) (soloRun cfg p N) := rfl
    obtain ⟨c1, c2, c3, c4, c5, c6, c7, c8, c9, c10, c11, c12, c13, c14, c15⟩ :=
      integrate_core (resolveLayer cfg (soloRun cfg p N).layerId) cfg.mouseX
        cfg.mouseY cfg.width cfg.height cfg.stepSize (N % cfg.subSteps)
        (soloRun cfg p N)
    have hbnd := hbox N (Nat.lt_succ_self N)
    obtain ⟨hb1, hb2, hb3, hb4⟩ := hbnd
    have hpre : applyBounds cfg.width cfg.height
        (preBound cfg (soloRun cfg p N)) = preBound cfg (soloRun cfg p N) :=
      applyBounds_eq_self hb1 hb2 hb3 hb4
    have hvy' : (soloRun cfg p (N + 1)).vy
        = (soloRun cfg p N).vy
          + (resolveLayer cfg (soloRun cfg p N).layerId).gravityY
            * cfg.stepSize := by
      rw [hstep]
      show (captureTelemetry (N % cfg.subSteps) (applyBounds cfg.width
        cfg.height (preBound cfg (soloRun cfg p N)))).vy = _
      rw [captureTelemetry_vy, hpre]
      unfold preBound
      rw [moveAndDecay_vy]
      exact applyForces_vy_gravity _ _ _ _ _ _ hD hB hDamp
        (by rw [hAir, hL]; exact hair) (by rw [hVisc, hL]; exact hvisc)
    refine ⟨?_, ?_, ?_, ?_, ?_, ?_, ?_⟩
    · rw [hstep]; unfold integrateIn; rw [c2]; exact hL
    · rw [hstep]; unfold integrateIn; rw [c15]; exact hD
    · rw [hstep]; unfold integrateIn; rw [c14]; exact hB
    · rw [hstep]; unfold integrateIn; rw [c10]; exact hDamp
    · rw [hstep]; unfold integrateIn; rw [c11]; exact hAir
    · rw [hstep]; unfold integrateIn; rw [c12]; exact hVisc
    · rw [hvy', hVy, hL]
      push_cast
      ring

/-- C6: an entity that is never dragged, alone in the store (so never in
contact), never crossing a viewport edge, with buoyancy 0, damping 0, zero
`airResistance * atmDensity` and zero entity-times-environment viscosity,
starting from vy = 0: after N = n * subSteps engine sub-steps of size
`stepSize`, vy equals `gravityY * (N * stepSize)` — pure explicit-Euler
gravity accumulation. -/
theorem gravity_pure_euler (cfg : SimConfig) (p : PhysicsEntity)
    (hd : p.isDragging = false) (hb : p.buoyancy = 0) (hdamp : p.damping = 0)
    (hair : p.airResistance * (resolveLayer cfg p.layerId).atmDensity = 0)
    (hvisc : p.viscosity * (resolveLayer cfg p.layerId).viscosity = 0)
    (hvy : p.vy = 0) (n : ℕ)
    (hbox : ∀ k, k < n * cfg.subSteps →
      inBox cfg (preBound cfg (soloRun cfg p k))) :
    framesN cfg n [p] = [soloRun cfg p (n * cfg.subSteps)] ∧
    (soloRun cfg p (n * cfg.subSteps)).vy
      = (resolveLayer cfg p.layerId).gravityY
        * ((n * cfg.subSteps : ℕ) * cfg.stepSize) := by
  refine ⟨framesN_solo cfg p n, ?_⟩
  have h := (soloRun_gravity_state cfg p hd hb hdamp hair hvisc
    (n * cfg.subSteps) hbox).2.2.2.2.2.2
  rw [h, hvy]
  ring

/-- Gravity-only layer for the C6 witness: unit downward gravity, vacuum. -/
def fallLayer : Layer :=
  { gravityX := 0, gravityY := 1, atmDensity := 0, viscosity := 0 }

/-- Gravity-only configuration for the C6 witness: one unit-size sub-step
per frame in a 10000-square viewport. -/
def fallConfig : SimConfig :=
  { layers := [], defaultLayer := fallLayer, mouseX := 0, mouseY := 0,
    width := 10000, height := 10000, stepSize := 1, subSteps := 1 }

/-- Free-falling variant of the bootstrap entity for the C6 witness. -/
def fallEntity : PhysicsEntity :=
  { baseEntity with x := 100, y := 100, vx := 0, vy := 0, buoyancy := 0,
                    damping := 0, airResistance := 0, viscosity := 0 }

/-- C6 witness: two frames of the gravity-only configuration leave the
free-falling entity with vy = 1 * (2 * 1). -/
theorem gravity_pure_euler_witness :
    framesN fallConfig 2 [fallEntity]
      = [soloRun fallConfig fallEntity (2 * fallConfig.subSteps)] ∧
    (soloRun fallConfig fallEntity (2 * fallConfig.subSteps)).vy
      = (resolveLayer fallConfig fallEntity.layerId).gravityY
        * ((2 * fallConfig.subSteps : ℕ) * fallConfig.stepSize) := by
  refine gravity_pure_euler fallConfig fallEntity rfl rfl rfl ?_ ?_ rfl 2 ?_
  · simp [fallEntity, baseEntity, resolveLayer, fallConfig, fallLayer]
  · simp [fallEntity, baseEntity, resolveLayer, fallConfig, fallLayer]
  · intro k hk
    have hk2 : k < 2 := by simpa [fallConfig] using hk
    interval_cases k
    · unfold inBox preBound soloRun resolveLayer
      norm_num [fallConfig, fallLayer, fallEntity, baseEntity, moveAndDecay,
        applyForces]
    · unfold inBox preBound
      norm_num [soloRun, integrateIn, integrate, fallConfig, fallLayer,
        fallEntity, baseEntity, moveAndDecay, applyForces, captureTelemetry,
        applyBounds, boundBottom, boundTop, boundRight, boundLeft,
        resolveLayer]

/-- The `onMouseDown` loop, characterised from the right: every hit entity
gets its drag flag set, the selection ends at the last hit in store order
(falling back to the accumulator's selection), and the found flag records
whether any entity was hit. -/
theorem onMouseDown_foldl (mx my : ℝ) (ps : List PhysicsEntity) :
    ∀ (es : List PhysicsEntity) (sel : Option ℕ) (fnd : Bool),
      ps.foldl (fun (acc : List PhysicsEntity × Option ℕ × Bool) p =>
        if hitTest mx my p then
          (acc.1 ++ [{ p with isDragging := true }], some p.id, true)
        else (acc.1 ++ [p], acc.2.1, acc.2.2)) (es, sel, fnd)
      = (es ++ ps.map (fun p =>
            if hitTest mx my p then { p with isDragging := true } else p),
         ((ps.filter (fun p => decide (hitTest mx my p))).getLast?.map
           (fun q => some q.id)).getD sel,
         fnd || ps.any (fun p => decide (hitTest mx my p))) := by
  induction ps using List.reverseRecOn with
  | nil => intro es sel fnd; simp
  | append_singleton l a ih =>
    intro es sel fnd
    rw [List.foldl_append, ih]
    by_cases ha : hitTest mx my a
    · simp [ha, List.filter_append, List.map_append, List.any_append,
        List.getLast?_concat]
    · simp [ha, List.filter_append, List.map_append, List.any_append]

/-- C9 counterexample: with the pointer at the origin, entity 1 at distance
0 and entity 2 at distance 30 (both within their size + 20 radius), the
handler selects entity 2 — the last hit in store order, not the nearest —
and sets the drag flag on both. -/
theorem mousedown_selects_last_not_nearest :
    (onMouseDown 0 0 [{ baseEntity with x := 0, y := 0 },
        { baseEntity with id := 2, x := 30, y := 0 }]).selected = some 2 ∧
    (onMouseDown 0 0 [{ baseEntity with x := 0, y := 0 },
        { baseEntity with id := 2, x := 30, y := 0 }]).entities.map
          PhysicsEntity.isDragging = [true, true] ∧
    Real.sqrt ((0 - ({ baseEntity with x := 0, y := 0 } : PhysicsEntity).x) ^ 2
        + (0 - ({ baseEntity with x := 0, y := 0 } : PhysicsEntity).y) ^ 2)
      < Real.sqrt ((0 - ({ baseEntity with id := 2, x := 30, y := 0 } :
          PhysicsEntity).x) ^ 2
        + (0 - ({ baseEntity with id := 2, x := 30, y := 0 } :
          PhysicsEntity).y) ^ 2) ∧
    hitTest 0 0 { baseEntity with x := 0, y := 0 } ∧
    hitTest 0 0 { baseEntity with id := 2, x := 30, y := 0 } := by
  have h900 : Real.sqrt 900 = 30 := by
    rw [show (900 : ℝ) = 30 ^ 2 by norm_num]
    exact Real.sqrt_sq (by norm_num)
  have hnear : hitTest 0 0 ({ baseEntity with x := 0, y := 0 } :
      PhysicsEntity) := by
    unfold hitTest baseEntity
    norm_num
  have hfar : hitTest 0 0 ({ baseEntity with id := 2, x := 30, y := 0 } :
      PhysicsEntity) := by
    unfold hitTest baseEntity
    norm_num [h900]
  refine ⟨?_, ?_, ?_, hnear, hfar⟩
  · unfold onMouseDown
    rw [List.foldl_cons, if_pos hnear, List.foldl_cons, if_pos hfar,
      List.foldl_nil]
    rfl
  · unfold onMouseDown
    rw [List.foldl_cons, if_pos hnear, List.foldl_cons, if_pos hfar,
      List.foldl_nil]
    rfl
  · unfold baseEntity
    norm_num [h900]

/-- C9 amended: on pointer-down, every entity whose center lies within
distance size + 20 of the pointer enters the dragging state, and the
selection becomes the last such entity in store order (not the nearest);
if no entity lies within its radius the selection is cleared and no entity
enters the dragging state. -/
theorem mousedown_drags_all_hits (mx my : ℝ) (ps : List PhysicsEntity) :
    (onMouseDown mx my ps).entities
      = ps.map (fun p =>
          if hitTest mx my p then { p with isDragging := true } else p) ∧
    (onMouseDown mx my ps).selected
      = ((ps.filter (fun p => decide (hitTest mx my p))).getLast?).map
          PhysicsEntity.id ∧
    (onMouseDown mx my ps).dragging
      = ps.any (fun p => decide (hitTest mx my p)) := by
  unfold onMouseDown
  rw [onMouseDown_foldl]
  refine ⟨by simp, ?_, by simp⟩
  dsimp only
  rcases hlast : (ps.filter (fun p => decide (hitTest mx my p))).getLast?
    with _ | q
  · -- no hit: the found flag is false and the selection is cleared
    have hnone : ps.filter (fun p => decide (hitTest mx my p)) = [] := by
      cases hf : ps.filter (fun p => decide (hitTest mx my p)) with
      | nil => rfl
      | cons x xs =>
        rw [hf] at hlast
        simp [List.getLast?] at hlast
    have hany : ps.any (fun p => decide (hitTest mx my p)) = false := by
      rw [List.any_eq_false]
      exact List.filter_eq_nil_iff.mp hnone
    rw [hany]
    simp
  · have hany : ps.any (fun p => decide (hitTest mx my p)) = true := by
      rw [List.any_eq_true]
      have hq : q ∈ ps.filter (fun p => decide (hitTest mx my p)) :=
        List.mem_of_mem_getLast? hlast
      rw [List.mem_filter] at hq
      exact ⟨q, hq.1, hq.2⟩
    rw [hany]
    simp

end

end TitanOmni
